import Mathlib

/-!
Verification of the authentication and authorization core of the
ldap-web-manager backend (`src/backend/app/auth/jwt.py`,
`src/backend/app/api/auth.py`, `src/backend/app/ldap/connection.py`,
`src/backend/app/models/auth.py`).

The Python code is shallowly embedded: dictionaries become structures with
optional fields (a missing key is `none`), UTC wall-clock instants are whole
seconds (`Nat`, matching the `timegm`-style truncation the JWT library applies
to `exp`), the external LDAP directory is a record holding the people subtree
and a bind oracle, and HTTP failures are an explicit error type carried in
`Except`.
-/

namespace LdapAuth

/-- HTTP error response: status code plus detail message, as raised by
`fastapi.HTTPException`. -/
structure HTTPError where
  status_code : Nat
  detail : String
deriving DecidableEq, Repr

/-- The slice of `app/config.py` `Config` the auth core reads:
`jwt_secret`, `access_token_expire_minutes` (default 60),
`refresh_token_expire_days` (default 30). `jwt_algorithm` is a fixed
constant ("HS256") and is left implicit in the signature model. -/
structure Config where
  jwt_secret : String
  access_token_expire_minutes : Nat
  refresh_token_expire_days : Nat
deriving DecidableEq, Repr

/-- A decoded JWT payload. Fields mirror the keys the code reads with
`payload.get(...)`: a key that may be absent is an `Option`. `exp` is the
expiry instant in whole UTC seconds (the JWT library truncates datetimes to
integer seconds when encoding). `type` is the token-kind discriminator set by
the minting functions. -/
structure Payload where
  sub : Option String := none
  role : Option String := none
  email : Option String := none
  cn : Option String := none
  exp : Nat := 0
  type : Option String := none
deriving DecidableEq, Repr

/-- The `data` dict passed to `create_access_token` / `create_refresh_token`:
`login` passes `{sub, role, email, cn}`, the refresh endpoint and
`create_refresh_token` pass subsets. -/
structure TokenData where
  sub : Option String := none
  role : Option String := none
  email : Option String := none
  cn : Option String := none
deriving DecidableEq, Repr

/-- A signed token: the encoded payload together with its signature. The
HMAC signature over a shared secret is modelled by carrying the signing
secret itself; verification with secret `s` accepts exactly the tokens
signed with `s`. -/
structure Token where
  payload : Payload
  sig : String
deriving DecidableEq, Repr

/-- Model of `jose.jwt.encode(to_encode, secret, algorithm)`. -/
def jwt_encode (payload : Payload) (secret : String) : Token :=
  { payload := payload, sig := secret }

/-- Model of `jose.jwt.decode(token, secret, algorithms)`: the signature is
checked against the shared secret, then the registered claims are validated.
python-jose validates `exp` with `if exp < (now - leeway)` at `leeway = 0`
over whole-second UTC timestamps, so a token is accepted at every instant
`now ≤ exp` and rejected once `exp < now`. Any failure raises `JWTError`,
collapsed here to `none`. -/
def jwt_decode (token : Token) (secret : String) (now : Nat) : Option Payload :=
  if token.sig = secret then
    if token.payload.exp < now then none
    else some token.payload
  else none

/-- `create_access_token(data, expires_delta)` evaluated at mint-time `now`
(whole seconds): copies `data`, sets `exp` to `now` plus the delta (Python
truthiness: a `None` or zero `expires_delta` falls back to the configured
`access_token_expire_minutes`), sets `type` to `"access"`, and signs with
`config.jwt_secret`. -/
def create_access_token (data : TokenData) (expires_delta : Option Nat)
    (config : Config) (now : Nat) : Token :=
  let expire : Nat :=
    match expires_delta with
    | some d => if d = 0 then now + config.access_token_expire_minutes * 60 else now + d
    | none => now + config.access_token_expire_minutes * 60
  jwt_encode
    { sub := data.sub, role := data.role, email := data.email, cn := data.cn,
      exp := expire, type := some "access" }
    config.jwt_secret

/-- `create_refresh_token(data)` evaluated at mint-time `now`: copies `data`,
sets `exp` to `now + refresh_token_expire_days` (in seconds), sets `type` to
`"refresh"`, and signs with `config.jwt_secret`. -/
def create_refresh_token (data : TokenData) (config : Config) (now : Nat) : Token :=
  jwt_encode
    { sub := data.sub, role := data.role, email := data.email, cn := data.cn,
      exp := now + config.refresh_token_expire_days * 86400, type := some "refresh" }
    config.jwt_secret

/-- The `credentials_exception` built in `verify_token`. -/
def credentials_exception : HTTPError :=
  { status_code := 401, detail := "Could not validate credentials" }

/-- `verify_token(token)` evaluated at verify-time `now`: decode (signature +
expiry), then require a non-`None` `"sub"` claim; every failure raises the
same 401 `credentials_exception`. -/
def verify_token (config : Config) (token : Token) (now : Nat) :
    Except HTTPError Payload :=
  match jwt_decode token config.jwt_secret now with
  | none => .error credentials_exception
  | some payload =>
    match payload.sub with
    | none => .error credentials_exception
    | some _ => .ok payload

/-- The user dict returned by `get_current_user`; each field comes from
`payload.get(...)` and may be `None`. -/
structure CurrentUser where
  username : Option String
  role : Option String
  email : Option String
  cn : Option String
deriving DecidableEq, Repr

/-- `get_current_user`: verify the bearer token, reject with 401
"Invalid token type" unless the payload's `type` is `"access"`, and return
the claims as a user dict. -/
def get_current_user (config : Config) (token : Token) (now : Nat) :
    Except HTTPError CurrentUser :=
  match verify_token config token now with
  | .error e => .error e
  | .ok payload =>
    if payload.type ≠ some "access" then
      .error { status_code := 401, detail := "Invalid token type" }
    else
      .ok { username := payload.sub, role := payload.role,
            email := payload.email, cn := payload.cn }

/-- The `role_hierarchy` dict in `require_role`:
`{'admin': 3, 'operator': 2, 'readonly': 1}`; `none` for a missing key. -/
def role_hierarchy (r : String) : Option Nat :=
  if r = "admin" then some 3
  else if r = "operator" then some 2
  else if r = "readonly" then some 1
  else none

/-- The `role_checker` dependency produced by `require_role(required_role)`:
`user_role_level = role_hierarchy.get(current_user.get('role', 'readonly'), 1)`
(the dict built by `get_current_user` always carries a `role` key, possibly
`None`, and a `None` key misses the hierarchy, so level 1), and
`required_role_level = role_hierarchy.get(required_role, 3)`; rejects with
403 when `user_role_level < required_role_level`. -/
def role_checker (required_role : String) (current_user : CurrentUser) :
    Except HTTPError CurrentUser :=
  let user_role_level : Nat :=
    match current_user.role with
    | none => 1
    | some r => (role_hierarchy r).getD 1
  let required_role_level : Nat := (role_hierarchy required_role).getD 3
  if user_role_level < required_role_level then
    .error { status_code := 403,
             detail := "Insufficient permissions. Required role: " ++ required_role }
  else
    .ok current_user

/-- ASCII lowercasing of one character, as Python `str.lower()` acts on the
ASCII range (the group DNs and markers involved are ASCII). -/
def lowerChar (c : Char) : Char :=
  if 65 ≤ c.toNat ∧ c.toNat ≤ 90 then Char.ofNat (c.toNat + 32) else c

/-- Model of Python `s.lower()` on ASCII strings. -/
def strLower (s : String) : String := String.mk (s.data.map lowerChar)

/-- Helper for substring containment: `pat` occurs in the character list. -/
def containsAux (pat : List Char) : List Char → Bool
  | [] => pat.isEmpty
  | c :: rest => pat.isPrefixOf (c :: rest) || containsAux pat rest

/-- Python substring containment `pat in s`. -/
def strContains (s pat : String) : Bool :=
  containsAux pat.data s.data

/-- `determine_user_role(groups)`: one pass over the membership list; inside
each iteration, `'cn=ldap-admins' in group.lower()` is checked first, `elif
'cn=ldap-operators' in group.lower()` second, each returning immediately;
`'readonly'` when the loop finds nothing. -/
def determine_user_role : List String → String
  | [] => "readonly"
  | group :: rest =>
    if strContains (strLower group) "cn=ldap-admins" then "admin"
    else if strContains (strLower group) "cn=ldap-operators" then "operator"
    else determine_user_role rest

/-- One directory entry of the people subtree, with the attributes
`authenticate_user_ldap` requests: `uid`, `cn`, `mail`, `memberOf` (decoded
to strings), plus its DN. -/
structure LDAPEntry where
  dn : String
  uid : String
  cn : String
  email : String
  groups : List String
deriving DecidableEq, Repr

/-- The external LDAP directory at the interface the auth core consumes
(spec §6): the people subtree reachable from `ldap_people_ou`, and the bind
oracle — `bindOk dn password` is whether `simple_bind_s(dn, password)` on a
fresh connection succeeds. Bind failures (`INVALID_CREDENTIALS` as well as
any other `LDAPError`) are `false`. -/
structure Directory where
  people : List LDAPEntry
  bindOk : String → String → Bool

/-- `ldap_conn.search(config.ldap_people_ou, f"(uid={username})")`: the
entries of the people subtree whose `uid` equals `username`, in server
order. -/
def ldap_search_people (d : Directory) (username : String) : List LDAPEntry :=
  d.people.filter (fun e => e.uid = username)

/-- The user-info dict returned on successful authentication. -/
structure UserInfo where
  username : String
  dn : String
  cn : String
  email : String
  groups : List String
  role : String
deriving DecidableEq, Repr

/-- `authenticate_user_ldap(username, password)`: search the people subtree
for `(uid=username)`; `if not results: return None`; otherwise take
`results[0]` and attempt `simple_bind_s(user_dn, password)` with the supplied
password on a fresh connection; on bind failure return `None`; on success
build the user dict and derive the role from the entry's memberships. -/
def authenticate_user_ldap (d : Directory) (username password : String) :
    Option UserInfo :=
  let results := ldap_search_people d username
  match results with
  | [] => none
  | entry :: _ =>
    if d.bindOk entry.dn password then
      some { username := entry.uid, dn := entry.dn, cn := entry.cn,
             email := entry.email, groups := entry.groups,
             role := determine_user_role entry.groups }
    else
      none

/-- The body of `POST /auth/login` and `POST /auth/refresh` responses. -/
structure TokenResponse where
  access_token : Token
  refresh_token : Token
  token_type : String
  expires_in : Nat
deriving DecidableEq, Repr

/-- The `POST /auth/login` handler: authenticate against the directory; on
`None` raise 401 "Incorrect username or password"; on success mint an access
token from `{sub, role, email, cn}` and a refresh token from `{sub}`. -/
def login (config : Config) (d : Directory) (now : Nat)
    (username password : String) : Except HTTPError TokenResponse :=
  match authenticate_user_ldap d username password with
  | none => .error { status_code := 401, detail := "Incorrect username or password" }
  | some user =>
    .ok { access_token :=
            create_access_token
              { sub := some user.username, role := some user.role,
                email := some user.email, cn := some user.cn } none config now,
          refresh_token :=
            create_refresh_token { sub := some user.username } config now,
          token_type := "bearer",
          expires_in := config.access_token_expire_minutes * 60 }

/-- The `POST /auth/refresh` handler: verify the supplied token, require
`type == "refresh"`, then mint a new pair from the refresh token's own
payload — `role = payload.get("role", "readonly")`,
`email = payload.get("email", "")`, `cn = payload.get("cn", "")` — without
contacting the directory. The whole body sits in a
`try/except Exception` that converts every raised exception (including the
inner 401s) into 401 "Could not refresh token". -/
def refresh_token (config : Config) (now : Nat) (request : Token) :
    Except HTTPError TokenResponse :=
  match verify_token config request now with
  | .error _ => .error { status_code := 401, detail := "Could not refresh token" }
  | .ok payload =>
    if payload.type ≠ some "refresh" then
      .error { status_code := 401, detail := "Could not refresh token" }
    else
      .ok { access_token :=
              create_access_token
                { sub := payload.sub, role := some (payload.role.getD "readonly"),
                  email := some (payload.email.getD ""),
                  cn := some (payload.cn.getD "") } none config now,
            refresh_token := create_refresh_token { sub := payload.sub } config now,
            token_type := "bearer",
            expires_in := config.access_token_expire_minutes * 60 }

/-- `LoginRequest` validation (`app/models/auth.py`): `username` has
`min_length=3`, `password` has `min_length=1`. -/
def loginRequestValid (username password : String) : Bool :=
  3 ≤ username.length && 1 ≤ password.length

/-- The HTTP status of a handler result, `none` on success. -/
def errStatus {α : Type} : Except HTTPError α → Option Nat
  | .error e => some e.status_code
  | .ok _ => none

/-- Whether a handler result is a success. -/
def exceptOk {α : Type} : Except HTTPError α → Bool
  | .error _ => false
  | .ok _ => true

/-! Concrete instances used to evaluate the definitions. -/

/-- A concrete configuration with the default TTLs of `app/config.py`. -/
def cfg0 : Config :=
  { jwt_secret := "s3cret", access_token_expire_minutes := 60,
    refresh_token_expire_days := 30 }

/-- A directory holding one person, `alice`, whose server accepts the
correct password and also accepts the unauthenticated (empty-password)
simple bind, as LDAP servers configured to allow unauthenticated binds do. -/
def unauthBindDirectory : Directory :=
  { people := [{ dn := "uid=alice,ou=people,dc=example,dc=com", uid := "alice",
                 cn := "Alice Example", email := "alice@example.com", groups := [] }],
    bindOk := fun dn pw =>
      dn = "uid=alice,ou=people,dc=example,dc=com" && (pw = "alicepw" || pw = "") }

/-- First of two directory entries sharing `uid=alice`. -/
def aliceStaff : LDAPEntry :=
  { dn := "uid=alice,ou=staff,dc=example,dc=com", uid := "alice",
    cn := "Alice A", email := "a1@example.com", groups := [] }

/-- Second of two directory entries sharing `uid=alice`. -/
def aliceExt : LDAPEntry :=
  { dn := "uid=alice,ou=ext,dc=example,dc=com", uid := "alice",
    cn := "Alice B", email := "a2@example.com", groups := [] }

/-- A directory in which the lookup for `alice` is ambiguous: two entries
match; the bind succeeds for the first entry's DN with password `pw1`. -/
def dupEntryDirectory : Directory :=
  { people := [aliceStaff, aliceExt],
    bindOk := fun dn pw => dn = aliceStaff.dn && pw = "pw1" }

/-!  Claims  -/

/-- C1: the spec requires that `authenticate_user_ldap(username, "")` always
fail, never silently turning the empty-password simple bind into a success.
The code has no empty-password guard: against a directory whose server
accepts the unauthenticated (empty-password) bind, the function returns a
fully populated principal for `alice` with the empty password. (The HTTP
layer's `LoginRequest` enforces `min_length=1` on passwords, so the intent
that empty passwords fail is visible elsewhere in the code; the verifier
itself does not enforce it.) -/
theorem authenticate_empty_password_returns_principal :
    authenticate_user_ldap unauthBindDirectory "alice" "" =
      some { username := "alice", dn := "uid=alice,ou=people,dc=example,dc=com",
             cn := "Alice Example", email := "alice@example.com", groups := [],
             role := "readonly" } := by
  decide

/-- C3 counterexample: a principal that is a member of both the operator and
the admin group, with the operator membership listed first, resolves to
`"operator"`, although the second membership contains the admin marker — the
claim that any admin-marked membership yields `"admin"` regardless of order
is false. -/
theorem determine_user_role_admin_not_order_independent :
    determine_user_role
      ["cn=ldap-operators,ou=groups,dc=example,dc=com",
       "cn=ldap-admins,ou=groups,dc=example,dc=com"] = "operator" ∧
    strContains (strLower "cn=ldap-admins,ou=groups,dc=example,dc=com")
      "cn=ldap-admins" = true := by
  decide

/-- C3 (amended): `determine_user_role` never fails and is decided by the
first membership, in list order, that contains either marker: that
membership yields `"admin"` if it contains the admin marker (the admin
marker is checked before the operator marker within a single membership),
else `"operator"`; when no membership contains either marker the result is
`"readonly"`. A member of both groups therefore resolves to the role of
whichever marked membership appears first. -/
theorem determine_user_role_first_marked_membership (groups : List String) :
    determine_user_role groups =
      match groups.find? (fun g =>
          strContains (strLower g) "cn=ldap-admins" ||
          strContains (strLower g) "cn=ldap-operators") with
      | none => "readonly"
      | some g => if strContains (strLower g) "cn=ldap-admins" then "admin"
                  else "operator" := by
  induction groups with
  | nil => rfl
  | cons g rest ih =>
    by_cases ha : strContains (strLower g) "cn=ldap-admins" = true
    · simp [determine_user_role, List.find?_cons, ha]
    · by_cases ho : strContains (strLower g) "cn=ldap-operators" = true
      · simp [determine_user_role, List.find?_cons, ha, ho]
      · simp [determine_user_role, List.find?_cons, ha, ho, ih]

/-- C4 counterexample: in a directory where the lookup for `alice` matches
two entries, the verifier does not fail: it binds against the first entry
and returns a principal built from it. -/
theorem ambiguous_lookup_not_rejected :
    (ldap_search_people dupEntryDirectory "alice").length = 2 ∧
    authenticate_user_ldap dupEntryDirectory "alice" "pw1" =
      some { username := "alice", dn := "uid=alice,ou=staff,dc=example,dc=com",
             cn := "Alice A", email := "a1@example.com", groups := [],
             role := "readonly" } := by
  decide

/-- C4 (amended): the verifier fails with `NotFound` only when zero entries
match the username; when one or more entries match — including an ambiguous
match of several entries — it proceeds to a bind attempt against the first
returned entry, and the outcome is entirely determined by that first entry:
a principal built from it when the bind succeeds, a failure otherwise. -/
theorem authenticate_first_entry_only (d : Directory) (u p : String) :
    (ldap_search_people d u = [] → authenticate_user_ldap d u p = none) ∧
    ∀ e rest, ldap_search_people d u = e :: rest →
      authenticate_user_ldap d u p =
        (if d.bindOk e.dn p then
          some { username := e.uid, dn := e.dn, cn := e.cn, email := e.email,
                 groups := e.groups, role := determine_user_role e.groups }
        else none) := by
  constructor
  · intro h
    simp [authenticate_user_ldap, h]
  · intro e rest h
    simp [authenticate_user_ldap, h]

/-- C4 witness: the amended statement applied to the concrete ambiguous
directory, with the hypotheses discharged by evaluation. -/
theorem authenticate_first_entry_only_witness :
    authenticate_user_ldap dupEntryDirectory "alice" "pw1" =
      (if dupEntryDirectory.bindOk aliceStaff.dn "pw1" then
        some { username := aliceStaff.uid, dn := aliceStaff.dn, cn := aliceStaff.cn,
               email := aliceStaff.email, groups := aliceStaff.groups,
               role := determine_user_role aliceStaff.groups }
      else none) :=
  (authenticate_first_entry_only dupEntryDirectory "alice" "pw1").2
    aliceStaff [aliceExt] (by decide)

/-- Extracts the role claim of the minted access token from a token-endpoint
response; `none` when the endpoint failed. -/
def mintedAccessRole (r : Except HTTPError TokenResponse) : Option (Option String) :=
  match r with
  | .error _ => none
  | .ok resp => some resp.access_token.payload.role

/-- C2 counterexample: a previously issued, unexpired refresh token for
`bob` (minted at time 0, presented at time 100) yields a new access token
whose role claim is `"readonly"`, while a fresh derivation from bob's
current group memberships — here containing the admin marker — would give
`"admin"`: the role is not re-derived from the directory. -/
theorem refresh_role_not_rederived :
    mintedAccessRole
      (refresh_token cfg0 100 (create_refresh_token { sub := some "bob" } cfg0 0)) =
      some (some "readonly") ∧
    determine_user_role ["cn=ldap-admins,ou=groups,dc=example,dc=com"] = "admin" := by
  decide

/-- C2 (amended): for every previously issued, unexpired refresh token for
`bob`, `POST /auth/refresh` returns a new access token whose subject is
`bob` and whose role is copied from the refresh token's own payload with
default `"readonly"` — since refresh tokens carry only the subject, the new
access token's role is `"readonly"` — together with a fresh refresh token;
the directory is never consulted (the handler takes no directory input at
all). -/
theorem refresh_copies_payload_role (config : Config) (m now : Nat)
    (h : now ≤ m + config.refresh_token_expire_days * 86400) :
    refresh_token config now (create_refresh_token { sub := some "bob" } config m) =
      .ok { access_token :=
              create_access_token
                { sub := some "bob", role := some "readonly",
                  email := some "", cn := some "" } none config now,
            refresh_token := create_refresh_token { sub := some "bob" } config now,
            token_type := "bearer",
            expires_in := config.access_token_expire_minutes * 60 } := by
  unfold refresh_token verify_token jwt_decode create_refresh_token jwt_encode
  simp [Nat.not_lt.mpr h]

/-- C2 witness: the amended statement at the concrete configuration, minted
at time 0 and refreshed at time 100, well within the 30-day expiry. -/
theorem refresh_copies_payload_role_witness :
    refresh_token cfg0 100 (create_refresh_token { sub := some "bob" } cfg0 0) =
      .ok { access_token :=
              create_access_token
                { sub := some "bob", role := some "readonly",
                  email := some "", cn := some "" } none cfg0 100,
            refresh_token := create_refresh_token { sub := some "bob" } cfg0 100,
            token_type := "bearer",
            expires_in := cfg0.access_token_expire_minutes * 60 } :=
  refresh_copies_payload_role cfg0 0 100 (by decide)

/-- C5: kind isolation. Every token minted by `create_refresh_token` — for
any payload data, mint time and verify time — is rejected with HTTP 401 by
the access-token consumer `get_current_user` (its `type` claim is
`"refresh"`, never `"access"`); and every token minted by
`create_access_token` is rejected with HTTP 401 by the refresh endpoint
(its `type` claim is `"access"`, never `"refresh"`). -/
theorem kind_isolation (config : Config) (m now : Nat) (d1 d2 : TokenData)
    (delta : Option Nat) :
    errStatus (get_current_user config (create_refresh_token d1 config m) now) =
      some 401 ∧
    errStatus (refresh_token config now (create_access_token d2 delta config m)) =
      some 401 := by
  constructor
  · unfold get_current_user verify_token jwt_decode create_refresh_token jwt_encode
    by_cases hexp : m + config.refresh_token_expire_days * 86400 < now
    · simp [hexp, errStatus, credentials_exception]
    · cases hsub : d1.sub with
      | none => simp [hexp, hsub, errStatus, credentials_exception]
      | some s => simp [hexp, hsub, errStatus]
  · unfold refresh_token verify_token jwt_decode create_access_token jwt_encode
    by_cases hz : (match delta with
        | some d => if d = 0 then m + config.access_token_expire_minutes * 60 else m + d
        | none => m + config.access_token_expire_minutes * 60) < now
    · simp [hz, errStatus]
    · cases hsub : d2.sub with
      | none => simp [hz, hsub, errStatus]
      | some s => simp [hz, hsub, errStatus]

/-- C6 counterexample: a token minted at time 1000 with a 60-second
time-to-live is still accepted at verify-time 1060 = mint-time + ttl: the
validity window includes its right endpoint, contradicting the claim that
verification fails at every verify-time equal to or after mint-time + ttl. -/
theorem token_accepted_at_expiry_instant :
    exceptOk (verify_token cfg0
      (create_access_token { sub := some "alice" } (some 60) cfg0 1000) 1060) = true := by
  decide

/-- C6 (amended): for a token minted with a nonzero time-to-live `t` at
mint-time `m` (whole UTC seconds) and carrying a subject, verification
succeeds at every verify-time `v ≤ m + t` and fails at every later
verify-time: the validity interval is closed on the right — the boundary
instant `m + t` itself is accepted — and no further leeway is applied. -/
theorem verify_window_right_closed (data : TokenData) (config : Config) (m t v : Nat)
    (hs : data.sub.isSome = true) (ht : 0 < t) :
    (exceptOk (verify_token config (create_access_token data (some t) config m) v)
        = true) ↔ v ≤ m + t := by
  obtain ⟨s, hsub⟩ := Option.isSome_iff_exists.mp hs
  have ht' : ¬ t = 0 := Nat.pos_iff_ne_zero.mp ht
  unfold verify_token jwt_decode create_access_token jwt_encode
  by_cases hv : m + t < v
  · simp [ht', hv, exceptOk, Nat.not_le.mpr hv, credentials_exception]
  · simp [ht', hv, hsub, exceptOk, Nat.not_lt.mp hv]

/-- C6 witness: the amended window at mint-time 0, ttl 60, evaluated at the
boundary verify-time 60. -/
theorem verify_window_right_closed_witness :
    (exceptOk (verify_token cfg0
        (create_access_token { sub := some "alice" } (some 60) cfg0 0) 60) = true) ↔
      60 ≤ 0 + 60 :=
  verify_window_right_closed { sub := some "alice" } cfg0 0 60 60 (by decide) (by decide)

/-- The rank order stated by the spec: `admin = 3 > operator = 2 >
readonly = 1`, with every unknown role value ranked at the lowest rank.
Stated from the spec's words, to be compared against the code's
`role_hierarchy` lookup. -/
def specRank (r : String) : Nat :=
  if r = "admin" then 3 else if r = "operator" then 2 else 1

/-- A concrete authenticated user whose claims carry an unknown role. -/
def wizardUser : CurrentUser :=
  { username := some "alice", role := some "wizard",
    email := some "alice@example.com", cn := some "Alice Example" }

/-- C7: for every required role among `admin`, `operator`, `readonly`, the
guard accepts a user with claims role `r1` exactly when
`specRank r1 ≥ specRank r2` (for the three known roles these ranks are
3, 2, 1, and any unknown role value gets the lowest rank); a rejection is
HTTP 403; and a user whose role value is outside the hierarchy is treated
exactly like a `readonly` user rather than as an error. -/
theorem require_role_rank_order (r1 r2 : String) (u : CurrentUser)
    (h2 : r2 = "admin" ∨ r2 = "operator" ∨ r2 = "readonly") :
    ((exceptOk (role_checker r2 { u with role := some r1 }) = true) ↔
        specRank r2 ≤ specRank r1) ∧
    (specRank r1 < specRank r2 →
      errStatus (role_checker r2 { u with role := some r1 }) = some 403) ∧
    (role_hierarchy r1 = none →
      exceptOk (role_checker r2 { u with role := some r1 }) =
        exceptOk (role_checker r2 { u with role := some "readonly" })) := by
  have hrank : ∀ r : String, (role_hierarchy r).getD 1 = specRank r := by
    intro r
    unfold role_hierarchy specRank
    by_cases ha : r = "admin" <;> by_cases ho : r = "operator" <;>
      by_cases hr : r = "readonly" <;> simp [ha, ho, hr]
  have hreq : (role_hierarchy r2).getD 3 = specRank r2 := by
    rcases h2 with rfl | rfl | rfl <;> rfl
  refine ⟨?_, ?_, ?_⟩
  · unfold role_checker
    simp only [hrank, hreq]
    by_cases hlt : specRank r1 < specRank r2
    · simp [hlt, exceptOk, Nat.not_le.mpr hlt]
    · simp [hlt, exceptOk, Nat.not_lt.mp hlt]
  · intro hlt
    unfold role_checker
    simp only [hrank, hreq]
    simp [hlt, errStatus]
  · intro hnone
    unfold role_checker
    simp only [hrank, hreq]
    have : specRank r1 = specRank "readonly" := by
      unfold role_hierarchy at hnone
      unfold specRank
      by_cases ha : r1 = "admin" <;> by_cases ho : r1 = "operator" <;>
        simp [ha, ho] at hnone ⊢
    rw [this]
    by_cases hlt : specRank "readonly" < specRank r2 <;> simp [hlt, exceptOk]

/-- C7 witness: the ordering statement at the unknown claims role
`"wizard"` against the required role `"operator"`. -/
theorem require_role_rank_order_witness :
    ((exceptOk (role_checker "operator" { wizardUser with role := some "wizard" }) = true) ↔
        specRank "operator" ≤ specRank "wizard") ∧
    (specRank "wizard" < specRank "operator" →
      errStatus (role_checker "operator" { wizardUser with role := some "wizard" }) =
        some 403) ∧
    (role_hierarchy "wizard" = none →
      exceptOk (role_checker "operator" { wizardUser with role := some "wizard" }) =
        exceptOk (role_checker "operator" { wizardUser with role := some "readonly" })) :=
  require_role_rank_order "wizard" "operator" wizardUser (Or.inr (Or.inl rfl))

/-- C8: round-trip. For every subject, role, email and display name, the
token minted by `create_access_token` (any expiry delta, any mint time) is
accepted by the access-token consumer immediately after minting, returning
the same four claim values with no information loss. -/
theorem access_token_roundtrip (s role email cn : String) (config : Config)
    (delta : Option Nat) (m : Nat) :
    get_current_user config
      (create_access_token
        { sub := some s, role := some role, email := some email, cn := some cn }
        delta config m) m =
      .ok { username := some s, role := some role,
            email := some email, cn := some cn } := by
  unfold get_current_user verify_token jwt_decode create_access_token jwt_encode
  cases delta with
  | none => simp [Nat.not_lt.mpr (Nat.le_add_right m _)]
  | some d =>
    by_cases hd : d = 0 <;> simp [hd, Nat.not_lt.mpr (Nat.le_add_right m _)]

/-- A directory holding one person, `alice`, whose server accepts exactly
the password `"correct"` for alice's DN. -/
def oneUserDirectory : Directory :=
  { people := [{ dn := "uid=alice,ou=people,dc=example,dc=com", uid := "alice",
                 cn := "Alice Example", email := "alice@example.com",
                 groups := ["cn=ldap-operators,ou=groups,dc=example,dc=com"] }],
    bindOk := fun dn pw =>
      dn = "uid=alice,ou=people,dc=example,dc=com" && pw = "correct" }

/-- C9: credential-failure indistinguishability. A login for a username
whose lookup matches nothing and a login for an existing username with a
password the directory rejects produce the very same observable failure:
both equal the single error value with HTTP status 401 and detail
"Incorrect username or password". -/
theorem login_failures_indistinguishable (config : Config) (d : Directory) (now : Nat)
    (u1 p1 u2 p2 : String) (e : LDAPEntry) (rest : List LDAPEntry)
    (h1 : ldap_search_people d u1 = [])
    (h2 : ldap_search_people d u2 = e :: rest)
    (h3 : d.bindOk e.dn p2 = false) :
    login config d now u1 p1 =
      .error { status_code := 401, detail := "Incorrect username or password" } ∧
    login config d now u1 p1 = login config d now u2 p2 := by
  constructor
  · simp [login, authenticate_user_ldap, h1]
  · simp [login, authenticate_user_ldap, h1, h2, h3]

/-- C9 witness: in the one-user directory, the nonexistent user `mallory`
and the existing user `alice` with the wrong password fail identically. -/
theorem login_failures_indistinguishable_witness :
    login cfg0 oneUserDirectory 50 "mallory" "anything" =
      .error { status_code := 401, detail := "Incorrect username or password" } ∧
    login cfg0 oneUserDirectory 50 "mallory" "anything" =
      login cfg0 oneUserDirectory 50 "alice" "wrong" :=
  login_failures_indistinguishable cfg0 oneUserDirectory 50 "mallory" "anything"
    "alice" "wrong"
    { dn := "uid=alice,ou=people,dc=example,dc=com", uid := "alice",
      cn := "Alice Example", email := "alice@example.com",
      groups := ["cn=ldap-operators,ou=groups,dc=example,dc=com"] }
    [] (by decide) (by decide) (by decide)

/-- A correctly structured, unexpired payload that carries every claim
except a subject. -/
def subless : Payload :=
  { sub := none, role := some "admin", email := some "alice@example.com",
    cn := some "Alice Example", exp := 1000, type := some "access" }

/-- C10: a token whose payload lacks the `sub` claim is rejected by
`verify_token` with the 401 credentials error, even when its signature is
the configured secret's valid signature and it is unexpired. -/
theorem verify_rejects_missing_sub (config : Config) (p : Payload) (now : Nat)
    (h1 : p.sub = none) (h2 : now ≤ p.exp) :
    verify_token config { payload := p, sig := config.jwt_secret } now =
      .error credentials_exception := by
  unfold verify_token jwt_decode
  simp [Nat.not_lt.mpr h2, h1]

/-- C10 witness: the correctly signed, unexpired, sub-less payload is
rejected at verify-time 5. -/
theorem verify_rejects_missing_sub_witness :
    verify_token cfg0 { payload := subless, sig := cfg0.jwt_secret } 5 =
      .error credentials_exception :=
  verify_rejects_missing_sub cfg0 subless 5 rfl (by decide)

end LdapAuth
